import Mathlib

/-!
Shallow embedding of the pyhuec event-stream core
(`src/pyhuec/services/event_bus.py`, `event_transformer.py`, `state_manager.py`,
`event_service.py`, `src/pyhuec/transport/event_client.py`,
`src/pyhuec/models/dto/event_dto.py` and the cached response DTOs), together
with theorems settling the specification claims about it.

Conventions of the embedding:
* Python `datetime` values are opaque timestamps, modelled as `Nat`.
* Python `float` brightness values are carried, never computed with; they are
  modelled as `ℚ` so equality is decidable.
* Python dictionaries keyed by strings are association lists
  (`List (String × α)`) with first-match lookup, replace-or-append insert and
  remove-all erase, which matches `dict` semantics for unique keys.
* Fallible reads through Python's dynamic escape hatch (a malformed object
  raising on attribute access) are `Except String` values; a total Lean
  function models code that cannot raise.
-/

set_option autoImplicit false

namespace Pyhuec

/-- `EventType` from `models/dto/event_dto.py`. -/
inductive EventType where
  | update
  | add
  | delete
  | error
deriving DecidableEq, Repr

/-- `ResourceType` from `models/dto/event_dto.py`. -/
inductive ResourceType where
  | light
  | grouped_light
  | room
  | zone
  | scene
  | device
  | bridge
  | bridge_home
  | button
  | motion
  | temperature
  | light_level
  | entertainment
  | entertainment_configuration
  | behavior_instance
  | behavior_script
  | geofence
  | geofence_client
  | geolocation
deriving DecidableEq, Repr

/-- `ResourceIdentifierDTO`: reference to another resource by ID and type. -/
structure ResourceIdentifierDTO where
  rid : String
  rtype : String
deriving DecidableEq, Repr

/-- `OnDTO` from `event_dto.py`: on/off state carried in an event payload.
(`on` is quoted because Mathlib reserves it as a notation token.) -/
structure OnDTO where
  «on» : Bool
deriving DecidableEq, Repr

/-- `DimmingDTO` from `event_dto.py`: brightness carried in an event payload. -/
structure EventDimmingDTO where
  brightness : ℚ
deriving DecidableEq, Repr

/-- `EventDataDTO`: the data payload of one resource change within an event. -/
structure EventDataDTO where
  id : String
  id_v1 : Option String
  type : ResourceType
  owner : Option ResourceIdentifierDTO
  «on» : Option OnDTO
  dimming : Option EventDimmingDTO
  service_id : Option Int
deriving DecidableEq, Repr

deriving instance DecidableEq for Except

/-- `EventDTO`: one envelope of the stream message.  Each element of `data` is
a change slot: `.ok` when the change object reads as a well-formed
`EventDataDTO`, `.error` when attribute access on it raises (Python's dynamic
escape hatch, caught per change by the transformer). -/
structure EventDTO where
  creationtime : Nat
  id : String
  type : EventType
  data : List (Except String EventDataDTO)
deriving DecidableEq, Repr

/-- `EventStreamMessageDTO`: a complete parsed SSE message.  `data` is
`.error` when reading the envelope list itself raises (caught by the
transformer's outer handler). -/
structure EventStreamMessageDTO where
  id : Option String
  data : Except String (List EventDTO)
  timestamp : Option Nat
deriving DecidableEq, Repr

/-- The `metadata` dictionary attached to each internal event by
`EventTransformer.transform`. -/
structure EventMetadata where
  sse_message_id : Option String
  received_at : Option Nat
  legacy_id : Option String
  owner : Option ResourceIdentifierDTO
deriving DecidableEq, Repr

/-- `InternalEventDTO`: processed event ready for application logic. -/
structure InternalEventDTO where
  event_id : String
  event_type : EventType
  resource_type : ResourceType
  resource_id : String
  timestamp : Nat
  data : EventDataDTO
  metadata : Option EventMetadata
deriving DecidableEq, Repr

/-- `EventFilterDTO`: filter criteria for event subscription.  Each dimension
is `none` (absent) or a list of admitted values. -/
structure EventFilterDTO where
  event_types : Option (List EventType)
  resource_types : Option (List ResourceType)
  resource_ids : Option (List String)
deriving DecidableEq, Repr

/-- `EventSubscriptionDTO`: subscription record returned by `subscribe`. -/
structure EventSubscriptionDTO where
  subscription_id : String
  filter : Option EventFilterDTO
  active : Bool
deriving DecidableEq, Repr

/-! ## Event bus (`services/event_bus.py`) -/

/-- Python truthiness of one filter dimension as used in `_matches_filter`:
`event_filter.xs and e.x not in event_filter.xs` rejects the event exactly
when the dimension is present, non-empty and does not contain the attribute. -/
def dimensionRejects {α : Type} [DecidableEq α] (dim : Option (List α)) (attr : α) : Bool :=
  match dim with
  | none => false
  | some l => !l.isEmpty && !(decide (attr ∈ l))

/-- `EventBus._matches_filter`, line for line: a `None` filter matches
everything; otherwise each of the three dimensions may reject the event. -/
def matches_filter (event : InternalEventDTO) (event_filter : Option EventFilterDTO) : Bool :=
  match event_filter with
  | none => true
  | some f =>
    if dimensionRejects f.event_types event.event_type then false
    else if dimensionRejects f.resource_types event.resource_type then false
    else if dimensionRejects f.resource_ids event.resource_id then false
    else true

/-- `EventBus._dispatch_event`: the subscription table is a finite map from
subscription id to its (handler, filter) pair; handlers are identified by
their subscription id.  The result lists the ids whose handler is invoked
for the event, in table order. -/
def dispatch_event (subscriptions : List (String × Option EventFilterDTO))
    (event : InternalEventDTO) : List String :=
  (subscriptions.filter (fun s => matches_filter event s.2)).map Prod.fst

/-- The spec's wording of filter matching: every non-empty present dimension
must contain the corresponding attribute of the event; an absent or empty
dimension imposes no constraint; a `None` filter matches every event. -/
def matchesSpec (event : InternalEventDTO) (event_filter : Option EventFilterDTO) : Prop :=
  match event_filter with
  | none => True
  | some f =>
    (∀ l, f.event_types = some l → l ≠ [] → event.event_type ∈ l) ∧
    (∀ l, f.resource_types = some l → l ≠ [] → event.resource_type ∈ l) ∧
    (∀ l, f.resource_ids = some l → l ≠ [] → event.resource_id ∈ l)

lemma dimensionRejects_iff {α : Type} [DecidableEq α] (dim : Option (List α)) (attr : α) :
    dimensionRejects dim attr = false ↔ (∀ l, dim = some l → l ≠ [] → attr ∈ l) := by
  cases dim with
  | none => simp [dimensionRejects]
  | some l =>
    constructor
    · intro h l' hl' hne
      injection hl' with hl''
      subst hl''
      by_contra hmem
      have hrej : dimensionRejects (some l) attr = true := by
        simp [dimensionRejects, List.isEmpty_iff, hne, hmem]
      rw [hrej] at h
      exact Bool.noConfusion h
    · intro h
      by_cases hl : l = []
      · subst hl
        simp [dimensionRejects]
      · have hmem := h l rfl hl
        simp [dimensionRejects, List.isEmpty_iff, hl, hmem]

lemma matches_filter_eq_and (event : InternalEventDTO) (f : EventFilterDTO) :
    matches_filter event (some f) =
      (!dimensionRejects f.event_types event.event_type &&
        (!dimensionRejects f.resource_types event.resource_type &&
          !dimensionRejects f.resource_ids event.resource_id)) := by
  cases h1 : dimensionRejects f.event_types event.event_type <;>
    cases h2 : dimensionRejects f.resource_types event.resource_type <;>
      cases h3 : dimensionRejects f.resource_ids event.resource_id <;>
        simp [matches_filter, h1, h2, h3]

lemma matches_filter_iff (event : InternalEventDTO) (f : Option EventFilterDTO) :
    matches_filter event f = true ↔ matchesSpec event f := by
  cases f with
  | none => simp [matches_filter, matchesSpec]
  | some f =>
    rw [matches_filter_eq_and]
    simp only [Bool.and_eq_true, Bool.not_eq_true']
    rw [dimensionRejects_iff, dimensionRejects_iff, dimensionRejects_iff]
    exact Iff.rfl

/-! ## Event transformer (`services/event_transformer.py`) -/

/-- The `InternalEventDTO.model_construct(...)` call inside
`EventTransformer.transform`, field by field: the event carries the
envelope's id, type and creationtime, the change as payload, and metadata
assembled from the owning message and the change. -/
def mkInternalEvent (raw_message : EventStreamMessageDTO) (event : EventDTO)
    (event_data : EventDataDTO) : InternalEventDTO :=
  { event_id := event.id
    event_type := event.type
    resource_type := event_data.type
    resource_id := event_data.id
    timestamp := event.creationtime
    data := event_data
    metadata := some
      { sse_message_id := raw_message.id
        received_at := raw_message.timestamp
        legacy_id := event_data.id_v1
        owner := event_data.owner } }

/-- `EventTransformer.transform`, mirroring the Python control flow: the
accumulator plays `internal_events`; the outer `try` catches a failure
reading the envelope list (the accumulator is still empty at that point, so
the method returns the empty list); the inner `try` catches a failure
reading one change object and `continue`s, skipping only that change. -/
def transform (raw_message : EventStreamMessageDTO) : List InternalEventDTO :=
  match raw_message.data with
  | .error _ => []
  | .ok events =>
    events.foldl
      (fun acc event =>
        event.data.foldl
          (fun acc slot =>
            match slot with
            | .ok event_data => acc ++ [mkInternalEvent raw_message event event_data]
            | .error _ => acc)
          acc)
      []

/-- The internal event produced from one change slot: the event when the
slot reads back, nothing when reading it raises. -/
def slotEvent (raw_message : EventStreamMessageDTO) (event : EventDTO)
    (slot : Except String EventDataDTO) : Option InternalEventDTO :=
  match slot with
  | .ok event_data => some (mkInternalEvent raw_message event event_data)
  | .error _ => none

/-- Declarative characterization of `transform`: envelopes in order, readable
changes within each envelope in order, one event per readable change. -/
def transformSpec (raw_message : EventStreamMessageDTO) : List InternalEventDTO :=
  match raw_message.data with
  | .error _ => []
  | .ok events =>
    events.flatMap (fun event => event.data.filterMap (slotEvent raw_message event))

lemma foldl_slots_eq (raw_message : EventStreamMessageDTO) (event : EventDTO)
    (slots : List (Except String EventDataDTO)) (acc : List InternalEventDTO) :
    slots.foldl
        (fun acc slot =>
          match slot with
          | .ok event_data => acc ++ [mkInternalEvent raw_message event event_data]
          | .error _ => acc)
        acc
      = acc ++ slots.filterMap (slotEvent raw_message event) := by
  induction slots generalizing acc with
  | nil => simp
  | cons s rest ih =>
    cases s with
    | ok cd => simp [List.foldl_cons, List.filterMap_cons, ih, slotEvent]
    | error e => simp [List.foldl_cons, List.filterMap_cons, ih, slotEvent]

lemma foldl_events_eq (raw_message : EventStreamMessageDTO)
    (events : List EventDTO) (acc : List InternalEventDTO) :
    events.foldl
        (fun acc event =>
          event.data.foldl
            (fun acc slot =>
              match slot with
              | .ok event_data => acc ++ [mkInternalEvent raw_message event event_data]
              | .error _ => acc)
            acc)
        acc
      = acc ++ events.flatMap (fun event =>
          event.data.filterMap (slotEvent raw_message event)) := by
  induction events generalizing acc with
  | nil => simp
  | cons ev rest ih =>
    rw [List.foldl_cons, ih, foldl_slots_eq, List.flatMap_cons, List.append_assoc]

/-- `slotEvent` with the two message fields it actually uses passed directly:
the event built from one slot does not depend on the message's data field. -/
def slotEventMeta (mid : Option String) (mts : Option Nat) (event : EventDTO)
    (slot : Except String EventDataDTO) : Option InternalEventDTO :=
  match slot with
  | .ok cd => some
      { event_id := event.id
        event_type := event.type
        resource_type := cd.type
        resource_id := cd.id
        timestamp := event.creationtime
        data := cd
        metadata := some
          { sse_message_id := mid
            received_at := mts
            legacy_id := cd.id_v1
            owner := cd.owner } }
  | .error _ => none

lemma slotEvent_literal (mid : Option String) (mts : Option Nat)
    (dataField : Except String (List EventDTO)) (event : EventDTO) :
    slotEvent { id := mid, data := dataField, timestamp := mts } event
      = slotEventMeta mid mts event := by
  funext slot
  cases slot <;> rfl

lemma slotEventMeta_ext (mid : Option String) (mts : Option Nat)
    (e1 e2 : EventDTO) (hid : e1.id = e2.id) (hty : e1.type = e2.type)
    (hct : e1.creationtime = e2.creationtime) :
    slotEventMeta mid mts e1 = slotEventMeta mid mts e2 := by
  funext slot
  cases slot with
  | ok cd => simp [slotEventMeta, hid, hty, hct]
  | error e => rfl

lemma transform_eq_spec (raw_message : EventStreamMessageDTO) :
    transform raw_message = transformSpec raw_message := by
  unfold transform transformSpec
  cases raw_message.data with
  | error e => rfl
  | ok events => simpa using foldl_events_eq raw_message events []

/-- An envelope all of whose change objects read back correctly. -/
structure PureEnvelope where
  id : String
  type : EventType
  creationtime : Nat
  changes : List EventDataDTO
deriving DecidableEq, Repr

/-- The `EventDTO` corresponding to a `PureEnvelope`. -/
def PureEnvelope.toEventDTO (e : PureEnvelope) : EventDTO :=
  { creationtime := e.creationtime
    id := e.id
    type := e.type
    data := e.changes.map Except.ok }

/-- A stream message whose envelope list reads back correctly. -/
def mkMessage (mid : Option String) (mts : Option Nat)
    (envs : List PureEnvelope) : EventStreamMessageDTO :=
  { id := mid
    data := .ok (envs.map PureEnvelope.toEventDTO)
    timestamp := mts }

/-! ## Cached response DTOs

The four resource DTO modules (`models/dto/light_dto.py`,
`grouped_light_dto.py`, `room_dto.py`, `scene_dto.py`), one Lean namespace
per Python module.  Numeric `float` fields are carried values, modelled as
`ℚ`; `Dict[str, Any]` fields are opaque carried mappings, modelled as
`List (String × String)`; `Dict[str, bool]` is `List (String × Bool)`.
`ResourceIdentifierDTO` is redeclared identically in every Python module, so
the single top-level declaration is shared here.

`_patch_state` in the state manager assigns the event's `OnDTO` /
`EventDimmingDTO` object over the response-shaped value of the cached DTO's
`on` / `dimming` attribute (pydantic does not validate the assignment), so
those slots are sums of the two shapes an attribute can hold at runtime. -/

/-- Runtime value of a snapshot's `on` attribute: the response-shaped
`{"on": bool}` dictionary, or the event `OnDTO` written by `_patch_state`. -/
inductive OnSlot where
  | dict (entries : List (String × Bool))
  | dto (o : OnDTO)
deriving DecidableEq, Repr

namespace light_dto

structure MetadataDTO where
  name : String
  archetype : Option String
  fixed_mired : Option Int
deriving DecidableEq, Repr

structure XyDTO where
  x : ℚ
  y : ℚ
deriving DecidableEq, Repr

structure GamutDTO where
  red : XyDTO
  green : XyDTO
  blue : XyDTO
deriving DecidableEq, Repr

structure MirekSchemaDTO where
  mirek_minimum : Int
  mirek_maximum : Int
deriving DecidableEq, Repr

structure ColorTemperatureDTO where
  mirek : Option Int
  mirek_valid : Option Bool
  mirek_schema : Option MirekSchemaDTO
deriving DecidableEq, Repr

structure ColorDTO where
  xy : XyDTO
  gamut : Option GamutDTO
  gamut_type : Option String
deriving DecidableEq, Repr

structure DimmingDTO where
  brightness : ℚ
  min_dim_level : Option ℚ
deriving DecidableEq, Repr

structure DynamicsDTO where
  status : Option String
  status_values : Option (List String)
  speed : Option ℚ
  speed_valid : Option Bool
  duration : Option Int
deriving DecidableEq, Repr

structure AlertDTO where
  action : Option String
  action_values : Option (List String)
deriving DecidableEq, Repr

structure SignalingDTO where
  signal : Option String
  signal_values : Option (List String)
  duration : Option Int
  colors : Option (List XyDTO)
deriving DecidableEq, Repr

structure GradientPointDTO where
  color : ColorDTO
deriving DecidableEq, Repr

structure GradientDTO where
  points : List GradientPointDTO
  mode : Option String
  mode_values : Option (List String)
  points_capable : Option Int
  pixel_count : Option Int
deriving DecidableEq, Repr

structure EffectsDTO where
  effect : Option String
  effect_values : Option (List String)
  status : Option String
  status_values : Option (List String)
deriving DecidableEq, Repr

structure EffectActionDTO where
  effect : String
  effect_values : Option (List String)
deriving DecidableEq, Repr

structure EffectStatusDTO where
  effect : String
  effect_values : Option (List String)
deriving DecidableEq, Repr

structure EffectsV2DTO where
  action : Option EffectActionDTO
  status : Option EffectStatusDTO
deriving DecidableEq, Repr

structure TimedEffectsDTO where
  effect : Option String
  effect_values : Option (List String)
  status : Option String
  status_values : Option (List String)
  duration : Option Int
deriving DecidableEq, Repr

structure PowerupOnDTO where
  mode : String
  «on» : Option (List (String × Bool))
deriving DecidableEq, Repr

structure PowerupDimmingDTO where
  mode : String
  dimming : Option DimmingDTO
deriving DecidableEq, Repr

structure PowerupColorDTO where
  mode : String
  color_temperature : Option ColorTemperatureDTO
  color : Option ColorDTO
deriving DecidableEq, Repr

structure PowerupDTO where
  preset : String
  configured : Option Bool
  «on» : Option PowerupOnDTO
  dimming : Option PowerupDimmingDTO
  color : Option PowerupColorDTO
deriving DecidableEq, Repr

structure OrientationDTO where
  configurable : Option Bool
  orientation : Option String
deriving DecidableEq, Repr

structure OrderDTO where
  configurable : Option Bool
  order : Option String
deriving DecidableEq, Repr

structure ContentConfigurationDTO where
  orientation : Option OrientationDTO
  order : Option OrderDTO
deriving DecidableEq, Repr

structure ProductDataDTO where
  model_id : Option String
  manufacturer_name : Option String
  product_name : Option String
  product_archetype : Option String
  certified : Option Bool
  software_version : Option String
  hardware_platform_type : Option String
  function : Option String
deriving DecidableEq, Repr

/-- Runtime value of a light snapshot's `dimming` attribute: the response
`DimmingDTO`, or the event `EventDimmingDTO` written by `_patch_state`. -/
inductive DimmingSlot where
  | rest (d : DimmingDTO)
  | event (d : EventDimmingDTO)
deriving DecidableEq, Repr

/-- `LightResponseDTO` (GET response for one light). -/
structure LightResponseDTO where
  id : String
  id_v1 : Option String
  owner : ResourceIdentifierDTO
  metadata : Option MetadataDTO
  product_data : Option ProductDataDTO
  identify : Option (List (String × String))
  service_id : Option Int
  «on» : OnSlot
  dimming : Option DimmingSlot
  dimming_delta : Option (List (String × String))
  color_temperature : Option ColorTemperatureDTO
  color_temperature_delta : Option (List (String × String))
  color : Option ColorDTO
  dynamics : Option DynamicsDTO
  alert : Option AlertDTO
  signaling : Option SignalingDTO
  mode : Option String
  gradient : Option GradientDTO
  effects : Option EffectsDTO
  effects_v2 : Option EffectsV2DTO
  timed_effects : Option TimedEffectsDTO
  powerup : Option PowerupDTO
  content_configuration : Option ContentConfigurationDTO
  type : String
deriving DecidableEq, Repr

end light_dto

namespace grouped_light_dto

structure XyDTO where
  x : ℚ
  y : ℚ
deriving DecidableEq, Repr

structure ColorDTO where
  xy : XyDTO
deriving DecidableEq, Repr

structure MirekSchemaDTO where
  mirek_minimum : Int
  mirek_maximum : Int
deriving DecidableEq, Repr

structure ColorTemperatureDTO where
  mirek : Option Int
  mirek_valid : Option Bool
  mirek_schema : Option MirekSchemaDTO
deriving DecidableEq, Repr

structure DimmingDTO where
  brightness : ℚ
deriving DecidableEq, Repr

structure AlertDTO where
  action : Option String
  action_values : Option (List String)
deriving DecidableEq, Repr

structure SignalingDTO where
  signal : Option String
  signal_values : Option (List String)
  duration : Option Int
  colors : Option (List XyDTO)
deriving DecidableEq, Repr

structure DynamicsDTO where
  duration : Option Int
  speed : Option ℚ
deriving DecidableEq, Repr

/-- Runtime value of a grouped-light snapshot's `dimming` attribute. -/
inductive DimmingSlot where
  | rest (d : DimmingDTO)
  | event (d : EventDimmingDTO)
deriving DecidableEq, Repr

/-- `GroupedLightResponseDTO` (GET response for one grouped light). -/
structure GroupedLightResponseDTO where
  id : String
  id_v1 : Option String
  owner : ResourceIdentifierDTO
  «on» : Option OnSlot
  dimming : Option DimmingSlot
  dimming_delta : Option (List (String × String))
  color_temperature : Option ColorTemperatureDTO
  color : Option ColorDTO
  alert : Option AlertDTO
  signaling : Option SignalingDTO
  dynamics : Option DynamicsDTO
  type : String
deriving DecidableEq, Repr

end grouped_light_dto

namespace room_dto

structure MetadataDTO where
  name : String
  archetype : Option String
deriving DecidableEq, Repr

/-- `RoomResponseDTO` (GET response for one room/zone).  It has no `on` or
`dimming` attribute, so `_patch_state`'s `hasattr` guards skip it. -/
structure RoomResponseDTO where
  id : String
  id_v1 : Option String
  metadata : MetadataDTO
  children : List ResourceIdentifierDTO
  services : List ResourceIdentifierDTO
  type : String
deriving DecidableEq, Repr

end room_dto

namespace scene_dto

structure MetadataDTO where
  name : String
  image : Option ResourceIdentifierDTO
  appdata : Option String
deriving DecidableEq, Repr

structure XyDTO where
  x : ℚ
  y : ℚ
deriving DecidableEq, Repr

structure ColorDTO where
  xy : XyDTO
deriving DecidableEq, Repr

structure ColorTemperatureDTO where
  mirek : Int
deriving DecidableEq, Repr

structure DimmingDTO where
  brightness : ℚ
deriving DecidableEq, Repr

structure GradientPointDTO where
  color : ColorDTO
deriving DecidableEq, Repr

structure GradientDTO where
  points : List GradientPointDTO
deriving DecidableEq, Repr

structure EffectsDTO where
  effect : String
deriving DecidableEq, Repr

structure DynamicsDTO where
  duration : Int
deriving DecidableEq, Repr

structure ActionDTO where
  target : ResourceIdentifierDTO
  «on» : Option (List (String × Bool))
  dimming : Option DimmingDTO
  color : Option ColorDTO
  color_temperature : Option ColorTemperatureDTO
  gradient : Option GradientDTO
  effects : Option EffectsDTO
  dynamics : Option DynamicsDTO
deriving DecidableEq, Repr

structure PaletteColorDTO where
  color : ColorDTO
  dimming : DimmingDTO
deriving DecidableEq, Repr

structure PaletteColorTemperatureDTO where
  color_temperature : ColorTemperatureDTO
  dimming : DimmingDTO
deriving DecidableEq, Repr

structure PaletteDTO where
  color : Option (List PaletteColorDTO)
  color_temperature : Option (List PaletteColorTemperatureDTO)
  dimming : Option (List DimmingDTO)
deriving DecidableEq, Repr

structure SceneStatusDTO where
  active : Option String
deriving DecidableEq, Repr

/-- `SceneResponseDTO` (GET response for one scene).  It has no top-level
`on` or `dimming` attribute, so `_patch_state`'s `hasattr` guards skip it. -/
structure SceneResponseDTO where
  id : String
  id_v1 : Option String
  metadata : MetadataDTO
  group : ResourceIdentifierDTO
  actions : List ActionDTO
  palette : Option PaletteDTO
  speed : Option ℚ
  auto_dynamic : Option Bool
  status : Option SceneStatusDTO
  type : String
deriving DecidableEq, Repr

end scene_dto

/-! ## State manager (`services/state_manager.py`)

The four caches are Python dicts annotated with the per-type response DTO,
but `update_from_rest` stores its `data: Any` argument unchecked, so a map
value is modelled as the sum of the four DTO shapes. -/

/-- A value stored in one of the state manager's caches. -/
inductive ResourceData where
  | light (d : light_dto.LightResponseDTO)
  | grouped_light (d : grouped_light_dto.GroupedLightResponseDTO)
  | room (d : room_dto.RoomResponseDTO)
  | scene (d : scene_dto.SceneResponseDTO)
deriving DecidableEq, Repr

/-- `dict.get`: first-match lookup in an association list. -/
def alGet {α : Type} (m : List (String × α)) (k : String) : Option α :=
  match m with
  | [] => none
  | (k', v) :: rest => if k' = k then some v else alGet rest k

/-- `dict[k] = v`: replace the value of an existing key in place, else
append the new binding. -/
def alInsert {α : Type} (m : List (String × α)) (k : String) (v : α) :
    List (String × α) :=
  match m with
  | [] => [(k, v)]
  | (k', v') :: rest =>
    if k' = k then (k', v) :: rest else (k', v') :: alInsert rest k v

/-- `dict.pop(k, None)`: remove the binding for a key if present. -/
def alErase {α : Type} (m : List (String × α)) (k : String) : List (String × α) :=
  m.filter (fun p => !(decide (p.1 = k)))

/-- The mutable state of a `StateManager` instance. -/
structure StateManager where
  lights : List (String × ResourceData)
  grouped_lights : List (String × ResourceData)
  rooms : List (String × ResourceData)
  scenes : List (String × ResourceData)
  last_update : List (String × Nat)
  initialized : Bool
deriving DecidableEq, Repr

/-- `StateManager.__init__`. -/
def StateManager.init : StateManager :=
  { lights := [], grouped_lights := [], rooms := [], scenes := []
    last_update := [], initialized := false }

/-- `StateManager.get_light`. -/
def get_light (s : StateManager) (light_id : String) : Option ResourceData :=
  alGet s.lights light_id

/-- `StateManager.get_grouped_light`. -/
def get_grouped_light (s : StateManager) (group_id : String) : Option ResourceData :=
  alGet s.grouped_lights group_id

/-- `StateManager.get_room`. -/
def get_room (s : StateManager) (room_id : String) : Option ResourceData :=
  alGet s.rooms room_id

/-- `StateManager.get_scene`. -/
def get_scene (s : StateManager) (scene_id : String) : Option ResourceData :=
  alGet s.scenes scene_id

/-- `StateManager.get_last_update`. -/
def get_last_update (s : StateManager) (resource_id : String) : Option Nat :=
  alGet s.last_update resource_id

/-- `StateManager.update_from_rest`: replace-or-insert into the map selected
by `resource_type` (no map for any other type), then unconditionally stamp
`last_update[resource_id] = datetime.now()`; `now` makes the clock explicit. -/
def update_from_rest (s : StateManager) (resource_type : ResourceType)
    (resource_id : String) (data : ResourceData) (now : Nat) : StateManager :=
  let s' :=
    match resource_type with
    | .light => { s with lights := alInsert s.lights resource_id data }
    | .grouped_light =>
      { s with grouped_lights := alInsert s.grouped_lights resource_id data }
    | .room => { s with rooms := alInsert s.rooms resource_id data }
    | .scene => { s with scenes := alInsert s.scenes resource_id data }
    | _ => s
  { s' with last_update := alInsert s'.last_update resource_id now }

/-- `StateManager._patch_state`: copy `event.data.on` over the snapshot's
`on` attribute when the payload carries one and the snapshot has the
attribute (lights always, grouped lights; rooms and scenes fail `hasattr`),
then likewise for `dimming`.  The assignment stores the event-shaped object,
as pydantic does not validate assignments. -/
def patch_state (current_state : ResourceData) (event : InternalEventDTO) :
    ResourceData :=
  let afterOn :=
    match event.data.«on» with
    | some o =>
      match current_state with
      | .light d => .light { d with «on» := OnSlot.dto o }
      | .grouped_light d => .grouped_light { d with «on» := some (OnSlot.dto o) }
      | .room d => .room d
      | .scene d => .scene d
    | none => current_state
  match event.data.dimming with
  | some dm =>
    match afterOn with
    | .light d => .light { d with dimming := some (light_dto.DimmingSlot.event dm) }
    | .grouped_light d =>
      .grouped_light { d with dimming := some (grouped_light_dto.DimmingSlot.event dm) }
    | .room d => .room d
    | .scene d => .scene d
  | none => afterOn

/-- The `current = ...` lookup block at the top of
`StateManager._handle_update`: the existing entry in the map selected by the
event's resource type; `None` when the type has no map. -/
def lookup_current (s : StateManager) (event : InternalEventDTO) : Option ResourceData :=
  match event.resource_type with
  | .light => alGet s.lights event.resource_id
  | .grouped_light => alGet s.grouped_lights event.resource_id
  | .room => alGet s.rooms event.resource_id
  | .scene => alGet s.scenes event.resource_id
  | _ => none

/-- `StateManager._handle_update`: look up the existing entry (see
`lookup_current`); absent means log and do nothing; present means patch the
snapshot in place and stamp `last_update[resource_id] = event.timestamp`. -/
def handle_update (s : StateManager) (event : InternalEventDTO) : StateManager :=
  let resource_id := event.resource_id
  match lookup_current s event with
  | none => s
  | some cur =>
    let patched := patch_state cur event
    let s' :=
      match event.resource_type with
      | .light => { s with lights := alInsert s.lights resource_id patched }
      | .grouped_light =>
        { s with grouped_lights := alInsert s.grouped_lights resource_id patched }
      | .room => { s with rooms := alInsert s.rooms resource_id patched }
      | .scene => { s with scenes := alInsert s.scenes resource_id patched }
      | _ => s
    { s' with last_update := alInsert s'.last_update resource_id event.timestamp }

/-- `StateManager._handle_delete`: remove the entry from the map selected by
the resource type (no-op for other types) and drop its timestamp. -/
def handle_delete (s : StateManager) (resource_type : ResourceType)
    (resource_id : String) : StateManager :=
  let s' :=
    match resource_type with
    | .light => { s with lights := alErase s.lights resource_id }
    | .grouped_light =>
      { s with grouped_lights := alErase s.grouped_lights resource_id }
    | .room => { s with rooms := alErase s.rooms resource_id }
    | .scene => { s with scenes := alErase s.scenes resource_id }
    | _ => s
  { s' with last_update := alErase s'.last_update resource_id }

/-- `StateManager.update_from_event`: dispatch on the event kind; kinds other
than delete/update/add fall through and do nothing. -/
def update_from_event (s : StateManager) (event : InternalEventDTO) : StateManager :=
  if event.event_type = .delete then
    handle_delete s event.resource_type event.resource_id
  else if event.event_type = .update ∨ event.event_type = .add then
    handle_update s event
  else
    s

/-! ## Stream transport (`transport/event_client.py`) -/

/-- The connection-relevant state of an `EventClient` instance:
`_connected`, whether `_client` still holds the `httpx` client (it is set to
`None` by `disconnect`), and `_current_endpoint`. -/
structure EventClientState where
  connected : Bool
  clientPresent : Bool
  endpoint : Option String
deriving DecidableEq, Repr

/-- `EventClient.__init__`: a fresh instance owns a client, is not connected
and has no endpoint. -/
def EventClientState.init : EventClientState :=
  { connected := false, clientPresent := true, endpoint := none }

/-- `EventClient.connect`: no-op with a warning when already connected;
otherwise record the endpoint and mark connected.  It performs no I/O and
never raises. -/
def clientConnect (c : EventClientState) (endpoint : String) : EventClientState :=
  if c.connected then c
  else { c with connected := true, endpoint := some endpoint }

/-- `EventClient.disconnect`: no-op when not connected; otherwise close and
drop the `httpx` client, clear the connected flag and the endpoint. -/
def clientDisconnect (c : EventClientState) : EventClientState :=
  if !c.connected then c
  else { connected := false, clientPresent := false, endpoint := none }

/-- `EventClient.is_connected`: `self._connected and self._client is not None`. -/
def clientIsConnected (c : EventClientState) : Bool :=
  c.connected && c.clientPresent

/-- The guard at the top of `EventClient.listen`: raise `RuntimeError` unless
connected, the client is present and an endpoint is recorded. -/
def listenGuard (c : EventClientState) : Except String Unit :=
  if !c.connected || !c.clientPresent || c.endpoint.isNone then
    .error "RuntimeError: Not connected to event stream. Call connect() first."
  else
    .ok ()

/-- A blank line in the framing loop: `if not line or line.strip() == ""`. -/
def isBlank (line : String) : Bool :=
  line.trim = ""

/-- The framing loop inside `listen`'s `async for`: `buffer` plays
`current_message`; a blank line flushes a non-empty buffer as one frame (the
buffered lines joined with newlines); when the stream ends, a remaining
non-empty buffer is flushed as a final frame. -/
def frameLoop (buffer : List String) (lines : List String) : List String :=
  match lines with
  | [] => if buffer.isEmpty then [] else [String.intercalate "\n" buffer]
  | line :: rest =>
    if isBlank line then
      if buffer.isEmpty then frameLoop [] rest
      else String.intercalate "\n" buffer :: frameLoop [] rest
    else frameLoop (buffer ++ [line]) rest

/-- Frames produced from one successful connection's line stream. -/
def frameLines (lines : List String) : List String :=
  frameLoop [] lines

/-- Modelled from the spec: the framing algorithm as written in spec section
4.1 — the line list is split on blank lines, empty groups are dropped, and
each remaining group is joined into one frame. -/
def splitOnBlank (lines : List String) : List (List String) :=
  match lines with
  | [] => [[]]
  | line :: rest =>
    if isBlank line then [] :: splitOnBlank rest
    else
      match splitOnBlank rest with
      | g :: gs => (line :: g) :: gs
      | [] => [[line]]

/-- Spec-side framing: non-empty blank-separated groups, each joined. -/
def framesSpec (lines : List String) : List String :=
  ((splitOnBlank lines).filter (fun g => !g.isEmpty)).map (String.intercalate "\n")

/-- One pass of `listen`'s reconnect loop body: a connection attempt either
raises (`none`: `httpx.HTTPStatusError`, `httpx.RequestError` or another
exception) or succeeds and streams the given lines until the server closes
the stream (`some lines`). -/
def Attempt : Type := Option (List String)

/-- What `listen` emits: frames, or the terminal `ConnectionError`. -/
inductive ListenOut where
  | frame (s : String)
  | connError (msg : String)
deriving DecidableEq, Repr

/-- `EventClient.listen`'s reconnect loop over a (finite prefix of the)
sequence of connection attempts, carrying `retry_count`: a failed attempt
increments the count and raises `ConnectionError` when the count reaches
`max_retries`; a successful attempt resets the count to zero and yields the
frames of its line stream.  Exhausting the attempt list models the client
being disconnected, which ends the loop quietly. -/
def listenRun (max_retries : Nat) (retry_count : Nat) (attempts : List Attempt) :
    List ListenOut :=
  match attempts with
  | [] => []
  | attempt :: rest =>
    match attempt with
    | none =>
      let rc := retry_count + 1
      if max_retries ≤ rc then
        [ListenOut.connError "Failed to connect after max_retries attempts"]
      else
        listenRun max_retries rc rest
    | some lines =>
      (frameLines lines).map ListenOut.frame ++ listenRun max_retries 0 rest

/-! ## Event producer (`transport/event_producer.py`),
event bus lifecycle (`services/event_bus.py`) and
event service (`services/event_service.py`) -/

/-- The lifecycle state of an `EventProducer`: its `_is_running` flag and
the `EventClient` it wraps. -/
structure ProducerState where
  is_running : Bool
  client : EventClientState
deriving DecidableEq, Repr

/-- `EventProducer.is_running`: own flag AND `client.is_connected()`. -/
def producerIsRunning (p : ProducerState) : Bool :=
  p.is_running && clientIsConnected p.client

/-- `EventProducer.stop`: no-op when not running; otherwise disconnect the
client (exceptions caught and logged) and, in the `finally`, clear the flag. -/
def producerStop (p : ProducerState) : ProducerState :=
  if !p.is_running then p
  else { is_running := false, client := clientDisconnect p.client }

/-- The lifecycle state of an `EventBus`: its subscription table, the
`_is_running` flag and the queue (`none` is the `stop` sentinel). -/
structure BusState where
  subscriptions : List (String × Option EventFilterDTO)
  is_running : Bool
  queue : List (Option InternalEventDTO)
deriving DecidableEq, Repr

/-- `EventBus.stop`: return immediately when not running; otherwise clear
the flag, enqueue the `None` sentinel, wait for the dispatch task, and clear
all subscriptions.  It never raises. -/
def busStop (b : BusState) : BusState :=
  if !b.is_running then b
  else { subscriptions := [], is_running := false, queue := b.queue ++ [none] }

/-- The processing task of an `EventService`: present or `None`; when
present, whether it has finished. -/
structure TaskState where
  done : Bool
deriving DecidableEq, Repr

/-- The lifecycle state of an `EventService`. -/
structure EventServiceState where
  producer : ProducerState
  bus : BusState
  processing_task : Option TaskState
  shutdown_event : Bool
deriving DecidableEq, Repr

/-- `EventService.is_streaming`: a live processing task AND
`producer.is_running()`. -/
def is_streaming (s : EventServiceState) : Bool :=
  (match s.processing_task with
   | some t => !t.done
   | none => false) &&
  producerIsRunning s.producer

/-- Observable steps taken by `stop_event_stream`, in order. -/
inductive ServiceAction where
  | warnNotRunning
  | cancelProcessingTask
  | stopProducer
  | stopBus
deriving DecidableEq, Repr

/-- `EventService.stop_event_stream`: no-op with a warning when not
streaming; otherwise set the shutdown event, cancel the processing task
(awaiting it and swallowing the `CancelledError`, then dropping the
reference), then stop the producer, then stop the bus.  Every exception on
this path is swallowed, so the call never raises; the returned action list
records the externally visible steps in order. -/
def stop_event_stream (s : EventServiceState) :
    EventServiceState × List ServiceAction :=
  if !(is_streaming s) then
    (s, [ServiceAction.warnNotRunning])
  else
    let s1 := { s with shutdown_event := true, processing_task := none }
    let s2 := { s1 with producer := producerStop s1.producer }
    let s3 := { s2 with bus := busStop s2.bus }
    (s3, [ServiceAction.cancelProcessingTask, ServiceAction.stopProducer,
          ServiceAction.stopBus])

/-! ## Association-list lemmas -/

lemma alGet_alInsert {α : Type} (m : List (String × α)) (k k' : String) (v : α) :
    alGet (alInsert m k v) k' = if k = k' then some v else alGet m k' := by
  induction m with
  | nil =>
    by_cases h : k = k' <;> simp [alInsert, alGet, h]
  | cons p rest ih =>
    obtain ⟨pk, pv⟩ := p
    by_cases hpk : pk = k
    · subst hpk
      by_cases hk : pk = k' <;> simp [alInsert, alGet, hk]
    · have h1 : alInsert ((pk, pv) :: rest) k v = (pk, pv) :: alInsert rest k v := by
        simp [alInsert, hpk]
      rw [h1]
      by_cases hp : pk = k'
      · subst hp
        have hk : ¬ k = pk := fun h => hpk h.symm
        simp [alGet, hk]
      · simp [alGet, hp, ih]

lemma alGet_alErase {α : Type} (m : List (String × α)) (k k' : String) :
    alGet (alErase m k) k' = if k = k' then none else alGet m k' := by
  induction m with
  | nil => by_cases h : k = k' <;> simp [alErase, alGet, h]
  | cons p rest ih =>
    obtain ⟨pk, pv⟩ := p
    by_cases hpk : pk = k
    · subst hpk
      have h1 : alErase ((pk, pv) :: rest) pk = alErase rest pk := by
        simp [alErase]
      rw [h1, ih]
      by_cases hk : pk = k' <;> simp [alGet, hk]
    · have h1 : alErase ((pk, pv) :: rest) k = (pk, pv) :: alErase rest k := by
        simp [alErase, hpk]
      rw [h1]
      by_cases hp : pk = k'
      · subst hp
        have hk : ¬ k = pk := fun h => hpk h.symm
        simp [alGet, hk]
      · simp [alGet, hp, ih]

/-! ## Claim theorems -/

/-- C1: for every event and every subscription with filter F registered on
the bus, dispatching the event invokes that subscription's handler iff every
non-empty dimension of F (event_types, resource_types, resource_ids)
contains the corresponding attribute of the event; absent or empty
dimensions impose no constraint, present dimensions combine with AND, and a
`None` filter matches every event (`matchesSpec` states exactly that). -/
theorem C1_filter_semantics (subscriptions : List (String × Option EventFilterDTO))
    (event : InternalEventDTO) (sid : String) :
    sid ∈ dispatch_event subscriptions event ↔
      ∃ f, (sid, f) ∈ subscriptions ∧ matchesSpec event f := by
  unfold dispatch_event
  simp only [List.mem_map, List.mem_filter]
  constructor
  · rintro ⟨⟨sid', f⟩, ⟨hmem, hmatch⟩, rfl⟩
    exact ⟨f, hmem, (matches_filter_iff _ _).mp hmatch⟩
  · rintro ⟨f, hmem, hspec⟩
    exact ⟨(sid, f), ⟨hmem, (matches_filter_iff _ _).mpr hspec⟩, rfl⟩

/-- C2: on a message whose envelope list and change objects all read back
correctly, `transform` yields exactly one internal event per resource
change, ordered by envelope order and then change order within each
envelope, each event carrying the owning envelope's id, type and
creationtime and metadata copied from the owning message. -/
theorem C2_transform_order (mid : Option String) (mts : Option Nat)
    (envs : List PureEnvelope) :
    transform (mkMessage mid mts envs) =
      envs.flatMap (fun env => env.changes.map (fun cd =>
        { event_id := env.id
          event_type := env.type
          resource_type := cd.type
          resource_id := cd.id
          timestamp := env.creationtime
          data := cd
          metadata := some
            { sse_message_id := mid
              received_at := mts
              legacy_id := cd.id_v1
              owner := cd.owner } })) := by
  rw [transform_eq_spec]
  unfold transformSpec mkMessage
  simp only [List.flatMap_map, slotEvent_literal]
  congr 1
  funext env
  show List.filterMap _ (PureEnvelope.toEventDTO env).data = _
  have hdata : (PureEnvelope.toEventDTO env).data = env.changes.map Except.ok := rfl
  rw [hdata]
  induction env.changes with
  | nil => rfl
  | cons c cs ih =>
    simp only [List.map_cons, List.filterMap_cons]
    rw [ih]
    rfl

/-- C4: `transform` is a total function (it never raises); a change object
whose read fails is skipped while every other change in the same message
still yields its event (removing the failing slot does not change the
result), and a message whose envelope list cannot be read yields the empty
sequence. -/
theorem C4_partial_failure :
    (∀ (mid : Option String) (mts : Option Nat) (e : String),
        transform { id := mid, data := .error e, timestamp := mts } = []) ∧
    (∀ (mid : Option String) (mts : Option Nat) (pre post : List EventDTO)
        (ct : Nat) (eid : String) (ety : EventType)
        (cpre cpost : List (Except String EventDataDTO)) (err : String),
        transform
            { id := mid
              data := .ok (pre ++
                { creationtime := ct, id := eid, type := ety,
                  data := cpre ++ Except.error err :: cpost } :: post)
              timestamp := mts }
          = transform
              { id := mid
                data := .ok (pre ++
                  { creationtime := ct, id := eid, type := ety,
                    data := cpre ++ cpost } :: post)
                timestamp := mts }) := by
  constructor
  · intro mid mts e
    rfl
  · intro mid mts pre post ct eid ety cpre cpost err
    rw [transform_eq_spec, transform_eq_spec]
    simp only [transformSpec, slotEvent_literal]
    rw [List.flatMap_append, List.flatMap_append, List.flatMap_cons, List.flatMap_cons]
    congr 1
    congr 1
    · rw [slotEventMeta_ext mid mts
        { creationtime := ct, id := eid, type := ety,
          data := cpre ++ Except.error err :: cpost }
        { creationtime := ct, id := eid, type := ety, data := cpre ++ cpost }
        rfl rfl rfl]
      rw [List.filterMap_append, List.filterMap_append, List.filterMap_cons]
      simp [slotEventMeta]

/-! ## Framing and reconnect lemmas -/

/-- `consFirst buffer groups` prepends `buffer` to the first group. -/
def consFirst (buffer : List String) : List (List String) → List (List String)
  | [] => [buffer]
  | g :: gs => (buffer ++ g) :: gs

lemma splitOnBlank_ne_nil (lines : List String) : splitOnBlank lines ≠ [] := by
  induction lines with
  | nil => simp [splitOnBlank]
  | cons line rest ih =>
    by_cases hl : isBlank line
    · simp [splitOnBlank, hl]
    · cases hres : splitOnBlank rest with
      | nil => exact absurd hres ih
      | cons g gs => simp [splitOnBlank, hl, hres]

lemma consFirst_nil_of_ne (S : List (List String)) (h : S ≠ []) :
    consFirst [] S = S := by
  cases S with
  | nil => exact absurd rfl h
  | cons g gs => simp [consFirst]

lemma frameLoop_eq (lines : List String) : ∀ buffer : List String,
    frameLoop buffer lines =
      ((consFirst buffer (splitOnBlank lines)).filter (fun g => !g.isEmpty)).map
        (String.intercalate "\n") := by
  induction lines with
  | nil =>
    intro buffer
    by_cases hb : buffer.isEmpty
    · have hnil : buffer = [] := by simpa using hb
      subst hnil
      simp [frameLoop, splitOnBlank, consFirst]
    · simp [frameLoop, splitOnBlank, consFirst, hb]
  | cons line rest ih =>
    intro buffer
    by_cases hl : isBlank line
    · have hsplit : splitOnBlank (line :: rest) = [] :: splitOnBlank rest := by
        simp [splitOnBlank, hl]
      rw [hsplit]
      have hcf : consFirst buffer ([] :: splitOnBlank rest)
          = buffer :: splitOnBlank rest := by
        simp [consFirst]
      rw [hcf]
      by_cases hb : buffer.isEmpty
      · have hnil : buffer = [] := by simpa using hb
        subst hnil
        have hloop : frameLoop [] (line :: rest) = frameLoop [] rest := by
          simp [frameLoop, hl]
        rw [hloop, ih []]
        rw [consFirst_nil_of_ne _ (splitOnBlank_ne_nil rest)]
        simp
      · have hloop : frameLoop buffer (line :: rest)
            = String.intercalate "\n" buffer :: frameLoop [] rest := by
          simp [frameLoop, hl, hb]
        rw [hloop, ih []]
        rw [consFirst_nil_of_ne _ (splitOnBlank_ne_nil rest)]
        simp [hb]
    · have hloop : frameLoop buffer (line :: rest)
          = frameLoop (buffer ++ [line]) rest := by
        simp [frameLoop, hl]
      rw [hloop, ih (buffer ++ [line])]
      cases hres : splitOnBlank rest with
      | nil => exact absurd hres (splitOnBlank_ne_nil rest)
      | cons g gs =>
        have hsplit : splitOnBlank (line :: rest) = (line :: g) :: gs := by
          simp [splitOnBlank, hl, hres]
        rw [hsplit]
        simp [consFirst]

lemma listenRun_replicate_fail (m : Nat) : ∀ (k rc : Nat), rc < m →
    listenRun m rc (List.replicate k (none : Attempt)) =
      (if m ≤ rc + k then
        [ListenOut.connError "Failed to connect after max_retries attempts"]
      else []) := by
  intro k
  induction k with
  | zero =>
    intro rc hrc
    rw [if_neg (by omega)]
    rfl
  | succ k ih =>
    intro rc hrc
    rw [List.replicate_succ]
    show (if m ≤ rc + 1 then _ else listenRun m (rc + 1) _) = _
    by_cases hm : m ≤ rc + 1
    · rw [if_pos hm, if_pos (by omega)]
    · rw [if_neg hm, ih (rc + 1) (by omega)]
      have harith : rc + 1 + k = rc + (k + 1) := by omega
      rw [harith]

/-! ## Claim theorems for the transport -/

/-- C7: the transport's framing — accumulate non-blank lines, flush the
joined buffer on a blank line when non-empty (a blank line with an empty
buffer emits nothing), and flush any non-empty partial frame at stream
termination — produces exactly the non-empty blank-separated groups of the
line sequence, each joined with newlines (`framesSpec`, written from the
spec's wording). -/
theorem C7_framing (lines : List String) : frameLines lines = framesSpec lines := by
  unfold frameLines framesSpec
  rw [frameLoop_eq lines []]
  rw [consFirst_nil_of_ne _ (splitOnBlank_ne_nil lines)]

/-- C3 counterexample: with `max_retries = 3` and every connection attempt
failing, `listen` raises the `ConnectionError` on the third failed attempt —
after exactly `max_retries` failures, which is not more than `max_retries` —
so the error is not "raised only after more than max_retries failed
attempts". -/
theorem C3_counterexample :
    listenRun 3 0 (List.replicate 3 (none : Attempt)) =
        [ListenOut.connError "Failed to connect after max_retries attempts"] ∧
      ¬ (3 : Nat) > 3 := by
  constructor
  · rfl
  · decide

/-- C3 (amended): a Transport whose underlying connection fails on every try
yields no frame and no error while the consecutive-failure count is strictly
below `max_retries`, and raises the `ConnectionError` exactly once the count
reaches `max_retries` (i.e. on the `max_retries`-th failed attempt), for any
positive retry bound. -/
theorem C3_reconnect_bound (m k : Nat) (hm : 1 ≤ m) :
    listenRun m 0 (List.replicate k (none : Attempt)) =
      (if m ≤ k then
        [ListenOut.connError "Failed to connect after max_retries attempts"]
      else []) := by
  have h := listenRun_replicate_fail m k 0 (by omega)
  simpa using h

/-- Witness for C3's amended theorem at `max_retries = 2`: two consecutive
failures already raise the error. -/
theorem C3_reconnect_bound_witness :
    listenRun 2 0 (List.replicate 2 (none : Attempt)) =
      (if 2 ≤ 2 then
        [ListenOut.connError "Failed to connect after max_retries attempts"]
      else []) :=
  C3_reconnect_bound 2 2 (by decide)

/-! ## State-manager lemmas -/

lemma alGet_alErase_none {α : Type} (m : List (String × α)) (rid k : String)
    (h : alGet m k = none) : alGet (alErase m rid) k = none := by
  rw [alGet_alErase]
  split <;> simp [h]

lemma alGet_alInsert_none {α : Type} (m : List (String × α)) (rid k : String)
    (v w : α) (hpres : alGet m rid = some w) (h : alGet m k = none) :
    alGet (alInsert m rid v) k = none := by
  rw [alGet_alInsert]
  by_cases hk : rid = k
  · subst hk
    rw [h] at hpres
    exact Option.noConfusion hpres
  · simp [hk, h]

lemma update_from_event_update (s : StateManager) (ev : InternalEventDTO)
    (hk : ev.event_type = .update ∨ ev.event_type = .add) :
    update_from_event s ev = handle_update s ev := by
  rcases hk with h | h <;> simp [update_from_event, h]

lemma patch_state_light (d : light_dto.LightResponseDTO) (ev : InternalEventDTO) :
    patch_state (ResourceData.light d) ev = ResourceData.light
      { d with
        «on» :=
          match ev.data.«on» with
          | some o => OnSlot.dto o
          | none => d.«on»
        dimming :=
          match ev.data.dimming with
          | some dm => some (light_dto.DimmingSlot.event dm)
          | none => d.dimming } := by
  unfold patch_state
  cases ev.data.«on» <;> cases ev.data.dimming <;> rfl

lemma patch_state_grouped_light (d : grouped_light_dto.GroupedLightResponseDTO)
    (ev : InternalEventDTO) :
    patch_state (ResourceData.grouped_light d) ev = ResourceData.grouped_light
      { d with
        «on» :=
          match ev.data.«on» with
          | some o => some (OnSlot.dto o)
          | none => d.«on»
        dimming :=
          match ev.data.dimming with
          | some dm => some (grouped_light_dto.DimmingSlot.event dm)
          | none => d.dimming } := by
  unfold patch_state
  cases ev.data.«on» <;> cases ev.data.dimming <;> rfl

lemma patch_state_room (d : room_dto.RoomResponseDTO) (ev : InternalEventDTO) :
    patch_state (ResourceData.room d) ev = ResourceData.room d := by
  unfold patch_state
  cases ev.data.«on» <;> cases ev.data.dimming <;> rfl

lemma patch_state_scene (d : scene_dto.SceneResponseDTO) (ev : InternalEventDTO) :
    patch_state (ResourceData.scene d) ev = ResourceData.scene d := by
  unfold patch_state
  cases ev.data.«on» <;> cases ev.data.dimming <;> rfl

lemma handle_update_light (s : StateManager) (ev : InternalEventDTO)
    (cur : ResourceData)
    (hrt : ev.resource_type = .light)
    (hcur : alGet s.lights ev.resource_id = some cur) :
    handle_update s ev =
      { s with
        lights := alInsert s.lights ev.resource_id (patch_state cur ev)
        last_update := alInsert s.last_update ev.resource_id ev.timestamp } := by
  unfold handle_update lookup_current
  rw [hrt]
  simp only [hcur, hrt]

lemma handle_update_grouped_light (s : StateManager) (ev : InternalEventDTO)
    (cur : ResourceData)
    (hrt : ev.resource_type = .grouped_light)
    (hcur : alGet s.grouped_lights ev.resource_id = some cur) :
    handle_update s ev =
      { s with
        grouped_lights :=
          alInsert s.grouped_lights ev.resource_id (patch_state cur ev)
        last_update := alInsert s.last_update ev.resource_id ev.timestamp } := by
  unfold handle_update lookup_current
  rw [hrt]
  simp only [hcur, hrt]

lemma handle_update_room (s : StateManager) (ev : InternalEventDTO)
    (cur : ResourceData)
    (hrt : ev.resource_type = .room)
    (hcur : alGet s.rooms ev.resource_id = some cur) :
    handle_update s ev =
      { s with
        rooms := alInsert s.rooms ev.resource_id (patch_state cur ev)
        last_update := alInsert s.last_update ev.resource_id ev.timestamp } := by
  unfold handle_update lookup_current
  rw [hrt]
  simp only [hcur, hrt]

lemma handle_update_scene (s : StateManager) (ev : InternalEventDTO)
    (cur : ResourceData)
    (hrt : ev.resource_type = .scene)
    (hcur : alGet s.scenes ev.resource_id = some cur) :
    handle_update s ev =
      { s with
        scenes := alInsert s.scenes ev.resource_id (patch_state cur ev)
        last_update := alInsert s.last_update ev.resource_id ev.timestamp } := by
  unfold handle_update lookup_current
  rw [hrt]
  simp only [hcur, hrt]

lemma update_from_event_no_create (s : StateManager) (ev : InternalEventDTO)
    (k : String) :
    (alGet s.lights k = none → alGet (update_from_event s ev).lights k = none) ∧
    (alGet s.grouped_lights k = none →
      alGet (update_from_event s ev).grouped_lights k = none) ∧
    (alGet s.rooms k = none → alGet (update_from_event s ev).rooms k = none) ∧
    (alGet s.scenes k = none → alGet (update_from_event s ev).scenes k = none) := by
  unfold update_from_event
  by_cases hd : ev.event_type = EventType.delete
  · rw [if_pos hd]
    unfold handle_delete
    cases ev.resource_type <;>
      first
        | exact ⟨fun h => alGet_alErase_none _ _ _ h, fun h => h, fun h => h,
            fun h => h⟩
        | exact ⟨fun h => h, fun h => alGet_alErase_none _ _ _ h, fun h => h,
            fun h => h⟩
        | exact ⟨fun h => h, fun h => h, fun h => alGet_alErase_none _ _ _ h,
            fun h => h⟩
        | exact ⟨fun h => h, fun h => h, fun h => h,
            fun h => alGet_alErase_none _ _ _ h⟩
        | exact ⟨fun h => h, fun h => h, fun h => h, fun h => h⟩
  · rw [if_neg hd]
    by_cases hu : ev.event_type = EventType.update ∨ ev.event_type = EventType.add
    · rw [if_pos hu]
      unfold handle_update lookup_current
      cases ev.resource_type
      · cases hcur : alGet s.lights ev.resource_id with
        | none =>
          simp only [hcur]
          exact ⟨fun h => h, fun h => h, fun h => h, fun h => h⟩
        | some cur =>
          simp only [hcur]
          exact ⟨fun h => alGet_alInsert_none _ _ _ _ cur hcur h, fun h => h,
            fun h => h, fun h => h⟩
      · cases hcur : alGet s.grouped_lights ev.resource_id with
        | none =>
          simp only [hcur]
          exact ⟨fun h => h, fun h => h, fun h => h, fun h => h⟩
        | some cur =>
          simp only [hcur]
          exact ⟨fun h => h, fun h => alGet_alInsert_none _ _ _ _ cur hcur h,
            fun h => h, fun h => h⟩
      · cases hcur : alGet s.rooms ev.resource_id with
        | none =>
          simp only [hcur]
          exact ⟨fun h => h, fun h => h, fun h => h, fun h => h⟩
        | some cur =>
          simp only [hcur]
          exact ⟨fun h => h, fun h => h,
            fun h => alGet_alInsert_none _ _ _ _ cur hcur h, fun h => h⟩
      · exact ⟨fun h => h, fun h => h, fun h => h, fun h => h⟩
      · cases hcur : alGet s.scenes ev.resource_id with
        | none =>
          simp only [hcur]
          exact ⟨fun h => h, fun h => h, fun h => h, fun h => h⟩
        | some cur =>
          simp only [hcur]
          exact ⟨fun h => h, fun h => h, fun h => h,
            fun h => alGet_alInsert_none _ _ _ _ cur hcur h⟩
      all_goals exact ⟨fun h => h, fun h => h, fun h => h, fun h => h⟩
    · rw [if_neg hu]
      exact ⟨fun h => h, fun h => h, fun h => h, fun h => h⟩

/-! ## Claim theorems for the state manager -/

/-- C5: for every cached entry and every update/add event whose key is
present in the cache, `update_from_event` replaces the entry (in the map
selected by the event's resource type, leaving the other caches untouched)
with the patched snapshot and stamps the entry's timestamp with
`event.timestamp`; the patch copies onto the snapshot only the recognized
fields carried by the payload (on-state and dimming/brightness) and only
when the snapshot has them — lights and grouped lights field for field, and
room and scene snapshots entirely unchanged — leaving every other field of
the snapshot unchanged. -/
theorem C5_patch_preserves_untouched (s : StateManager) (ev : InternalEventDTO)
    (cur : ResourceData)
    (hk : ev.event_type = .update ∨ ev.event_type = .add)
    (hcur : lookup_current s ev = some cur) :
    (ev.resource_type = .light →
      (update_from_event s ev).lights
          = alInsert s.lights ev.resource_id (patch_state cur ev) ∧
      (update_from_event s ev).grouped_lights = s.grouped_lights ∧
      (update_from_event s ev).rooms = s.rooms ∧
      (update_from_event s ev).scenes = s.scenes) ∧
    (ev.resource_type = .grouped_light →
      (update_from_event s ev).grouped_lights
          = alInsert s.grouped_lights ev.resource_id (patch_state cur ev) ∧
      (update_from_event s ev).lights = s.lights ∧
      (update_from_event s ev).rooms = s.rooms ∧
      (update_from_event s ev).scenes = s.scenes) ∧
    (ev.resource_type = .room →
      (update_from_event s ev).rooms
          = alInsert s.rooms ev.resource_id (patch_state cur ev) ∧
      (update_from_event s ev).lights = s.lights ∧
      (update_from_event s ev).grouped_lights = s.grouped_lights ∧
      (update_from_event s ev).scenes = s.scenes) ∧
    (ev.resource_type = .scene →
      (update_from_event s ev).scenes
          = alInsert s.scenes ev.resource_id (patch_state cur ev) ∧
      (update_from_event s ev).lights = s.lights ∧
      (update_from_event s ev).grouped_lights = s.grouped_lights ∧
      (update_from_event s ev).rooms = s.rooms) ∧
    get_last_update (update_from_event s ev) ev.resource_id
        = some ev.timestamp ∧
    (∀ d : light_dto.LightResponseDTO, cur = ResourceData.light d →
      ∃ d' : light_dto.LightResponseDTO,
        patch_state cur ev = ResourceData.light d' ∧
        d'.«on» =
          (match ev.data.«on» with
           | some o => OnSlot.dto o
           | none => d.«on») ∧
        d'.dimming =
          (match ev.data.dimming with
           | some dm => some (light_dto.DimmingSlot.event dm)
           | none => d.dimming) ∧
        d'.id = d.id ∧
        d'.id_v1 = d.id_v1 ∧
        d'.owner = d.owner ∧
        d'.metadata = d.metadata ∧
        d'.product_data = d.product_data ∧
        d'.identify = d.identify ∧
        d'.service_id = d.service_id ∧
        d'.dimming_delta = d.dimming_delta ∧
        d'.color_temperature = d.color_temperature ∧
        d'.color_temperature_delta = d.color_temperature_delta ∧
        d'.color = d.color ∧
        d'.dynamics = d.dynamics ∧
        d'.alert = d.alert ∧
        d'.signaling = d.signaling ∧
        d'.mode = d.mode ∧
        d'.gradient = d.gradient ∧
        d'.effects = d.effects ∧
        d'.effects_v2 = d.effects_v2 ∧
        d'.timed_effects = d.timed_effects ∧
        d'.powerup = d.powerup ∧
        d'.content_configuration = d.content_configuration ∧
        d'.type = d.type) ∧
    (∀ d : grouped_light_dto.GroupedLightResponseDTO,
        cur = ResourceData.grouped_light d →
      ∃ d' : grouped_light_dto.GroupedLightResponseDTO,
        patch_state cur ev = ResourceData.grouped_light d' ∧
        d'.«on» =
          (match ev.data.«on» with
           | some o => some (OnSlot.dto o)
           | none => d.«on») ∧
        d'.dimming =
          (match ev.data.dimming with
           | some dm => some (grouped_light_dto.DimmingSlot.event dm)
           | none => d.dimming) ∧
        d'.id = d.id ∧
        d'.id_v1 = d.id_v1 ∧
        d'.owner = d.owner ∧
        d'.dimming_delta = d.dimming_delta ∧
        d'.color_temperature = d.color_temperature ∧
        d'.color = d.color ∧
        d'.alert = d.alert ∧
        d'.signaling = d.signaling ∧
        d'.dynamics = d.dynamics ∧
        d'.type = d.type) ∧
    (∀ d : room_dto.RoomResponseDTO, cur = ResourceData.room d →
      patch_state cur ev = ResourceData.room d) ∧
    (∀ d : scene_dto.SceneResponseDTO, cur = ResourceData.scene d →
      patch_state cur ev = ResourceData.scene d) := by
  refine ⟨?_, ?_, ?_, ?_, ?_, ?_, ?_, ?_, ?_⟩
  · intro hrt
    have h := hcur
    unfold lookup_current at h
    rw [hrt] at h
    rw [update_from_event_update s ev hk, handle_update_light s ev cur hrt h]
    exact ⟨rfl, rfl, rfl, rfl⟩
  · intro hrt
    have h := hcur
    unfold lookup_current at h
    rw [hrt] at h
    rw [update_from_event_update s ev hk,
      handle_update_grouped_light s ev cur hrt h]
    exact ⟨rfl, rfl, rfl, rfl⟩
  · intro hrt
    have h := hcur
    unfold lookup_current at h
    rw [hrt] at h
    rw [update_from_event_update s ev hk, handle_update_room s ev cur hrt h]
    exact ⟨rfl, rfl, rfl, rfl⟩
  · intro hrt
    have h := hcur
    unfold lookup_current at h
    rw [hrt] at h
    rw [update_from_event_update s ev hk, handle_update_scene s ev cur hrt h]
    exact ⟨rfl, rfl, rfl, rfl⟩
  · rw [update_from_event_update s ev hk]
    have h := hcur
    unfold lookup_current at h
    cases hrt : ev.resource_type
    · rw [hrt] at h
      rw [handle_update_light s ev cur hrt h]
      simp [get_last_update, alGet_alInsert]
    · rw [hrt] at h
      rw [handle_update_grouped_light s ev cur hrt h]
      simp [get_last_update, alGet_alInsert]
    · rw [hrt] at h
      rw [handle_update_room s ev cur hrt h]
      simp [get_last_update, alGet_alInsert]
    · rw [hrt] at h
      exact Option.noConfusion h
    · rw [hrt] at h
      rw [handle_update_scene s ev cur hrt h]
      simp [get_last_update, alGet_alInsert]
    all_goals rw [hrt] at h; exact Option.noConfusion h
  · intro d hd
    subst hd
    rw [patch_state_light]
    refine ⟨_, rfl, ?_⟩
    repeat' apply And.intro
    all_goals rfl
  · intro d hd
    subst hd
    rw [patch_state_grouped_light]
    refine ⟨_, rfl, ?_⟩
    repeat' apply And.intro
    all_goals rfl
  · intro d hd
    subst hd
    exact patch_state_room d ev
  · intro d hd
    subst hd
    exact patch_state_scene d ev

/-- C6: an update/add event whose key is absent from the cache leaves the
entire state manager unchanged, and no `update_from_event` call of any kind
ever creates a cache entry under any key (entries come only from
`update_from_rest`). -/
theorem C6_patch_absent_noop (s : StateManager) (ev : InternalEventDTO)
    (hk : ev.event_type = .update ∨ ev.event_type = .add)
    (habs : lookup_current s ev = none) :
    update_from_event s ev = s ∧
    ∀ (ev' : InternalEventDTO) (k : String),
      (alGet s.lights k = none → alGet (update_from_event s ev').lights k = none) ∧
      (alGet s.grouped_lights k = none →
        alGet (update_from_event s ev').grouped_lights k = none) ∧
      (alGet s.rooms k = none → alGet (update_from_event s ev').rooms k = none) ∧
      (alGet s.scenes k = none → alGet (update_from_event s ev').scenes k = none) := by
  constructor
  · rw [update_from_event_update s ev hk]
    unfold handle_update
    rw [habs]
  · intro ev' k
    exact update_from_event_no_create s ev' k

/-- C10: `update_from_rest` with a resource type outside the four cached
kinds stores the snapshot in no cache map — every accessor answers exactly
as before — yet unconditionally stamps the per-resource timestamp, so
`get_last_update` afterwards reports an update for a resource that is not
cached anywhere. -/
theorem C10_uncached_type_stamps (s : StateManager) (rt : ResourceType)
    (rid : String) (d : ResourceData) (now : Nat)
    (h1 : rt ≠ .light) (h2 : rt ≠ .grouped_light) (h3 : rt ≠ .room)
    (h4 : rt ≠ .scene) :
    (update_from_rest s rt rid d now).lights = s.lights ∧
    (update_from_rest s rt rid d now).grouped_lights = s.grouped_lights ∧
    (update_from_rest s rt rid d now).rooms = s.rooms ∧
    (update_from_rest s rt rid d now).scenes = s.scenes ∧
    get_light (update_from_rest s rt rid d now) rid = get_light s rid ∧
    get_grouped_light (update_from_rest s rt rid d now) rid
        = get_grouped_light s rid ∧
    get_room (update_from_rest s rt rid d now) rid = get_room s rid ∧
    get_scene (update_from_rest s rt rid d now) rid = get_scene s rid ∧
    get_last_update (update_from_rest s rt rid d now) rid = some now := by
  cases rt <;> first
    | exact absurd rfl h1
    | exact absurd rfl h2
    | exact absurd rfl h3
    | exact absurd rfl h4
    | exact ⟨rfl, rfl, rfl, rfl, rfl, rfl, rfl, rfl,
        by simp [get_last_update, update_from_rest, alGet_alInsert]⟩

/-! ## Lifecycle claim theorems -/

/-- C8: `stop_event_stream` twice in a row raises nothing (it is a total
function) and leaves `is_streaming` false after each call; when the service
is streaming the first call cancels the processing task, stops the producer
and stops the bus in that order, and any call on a non-streaming service is
a no-op with a warning. -/
theorem C8_stop_idempotent (s : EventServiceState) :
    is_streaming (stop_event_stream s).1 = false ∧
    stop_event_stream (stop_event_stream s).1
        = ((stop_event_stream s).1, [ServiceAction.warnNotRunning]) ∧
    (is_streaming s = true →
      (stop_event_stream s).2
          = [ServiceAction.cancelProcessingTask, ServiceAction.stopProducer,
             ServiceAction.stopBus]) ∧
    (is_streaming s = false →
      stop_event_stream s = (s, [ServiceAction.warnNotRunning])) := by
  have stop_ns : ∀ t : EventServiceState, is_streaming t = false →
      stop_event_stream t = (t, [ServiceAction.warnNotRunning]) := by
    intro t ht
    unfold stop_event_stream
    rw [if_pos (by simp [ht])]
  by_cases hs : is_streaming s = true
  · have hcond : ¬ ((!(is_streaming s)) = true) := by
      rw [hs]
      decide
    have hstep : stop_event_stream s =
        ⟨{ producer := producerStop s.producer
           bus := busStop s.bus
           processing_task := none
           shutdown_event := true },
         [ServiceAction.cancelProcessingTask, ServiceAction.stopProducer,
          ServiceAction.stopBus]⟩ := by
      unfold stop_event_stream
      rw [if_neg hcond]
    have h1 : is_streaming (stop_event_stream s).1 = false := by
      rw [hstep]
      rfl
    refine ⟨h1, stop_ns _ h1, ?_, ?_⟩
    · intro _
      rw [hstep]
    · intro hf
      rw [hs] at hf
      exact Bool.noConfusion hf
  · have hs' : is_streaming s = false := by simpa using hs
    have hstop := stop_ns s hs'
    refine ⟨?_, ?_, ?_, fun _ => hstop⟩
    · rw [hstop]
      exact hs'
    · rw [hstop]
      exact hstop
    · intro ht
      rw [hs'] at ht
      exact Bool.noConfusion ht

/-- An `EventService` state that is streaming, for the C8 witness. -/
def exService : EventServiceState :=
  { producer :=
      { is_running := true
        client :=
          { connected := true, clientPresent := true
            endpoint := some "/eventstream/clip/v2" } }
    bus := { subscriptions := [], is_running := true, queue := [] }
    processing_task := some { done := false }
    shutdown_event := false }

/-- Witness for C8 on a concrete streaming service state. -/
theorem C8_stop_idempotent_witness :
    is_streaming (stop_event_stream exService).1 = false ∧
    (stop_event_stream exService).2
        = [ServiceAction.cancelProcessingTask, ServiceAction.stopProducer,
           ServiceAction.stopBus] := by
  obtain ⟨h1, h2, h3, h4⟩ := C8_stop_idempotent exService
  exact ⟨h1, h3 rfl⟩

/-- External operations that can be invoked on an `EventClient` after a
disconnect; `listen` and `is_connected` do not change the state. -/
inductive ClientOp where
  | connect (endpoint : String)
  | disconnect
deriving DecidableEq, Repr

/-- Run a sequence of client operations from a state. -/
def runClientOps (ops : List ClientOp) (c : EventClientState) : EventClientState :=
  match ops with
  | [] => c
  | ClientOp.connect e :: rest => runClientOps rest (clientConnect c e)
  | ClientOp.disconnect :: rest => runClientOps rest (clientDisconnect c)

lemma clientPresent_false_invariant (ops : List ClientOp) (c : EventClientState)
    (h : c.clientPresent = false) : (runClientOps ops c).clientPresent = false := by
  induction ops generalizing c with
  | nil => exact h
  | cons op rest ih =>
    cases op with
    | connect e =>
      apply ih
      cases hc : c.connected <;> simp [clientConnect, hc, h]
    | disconnect =>
      apply ih
      cases hc : c.connected <;> simp [clientDisconnect, hc, h]

/-- C9 counterexample: on a freshly constructed client (never connected),
`disconnect()` is a guarded no-op that does not release the HTTP client, so
a later `connect()` leaves `is_connected()` true and `listen()` passes its
guard instead of raising `RuntimeError` — the instance reaches a listenable
state after `disconnect()` has returned. -/
theorem C9_counterexample :
    clientIsConnected
        (clientConnect (clientDisconnect EventClientState.init)
          "/eventstream/clip/v2") = true ∧
    listenGuard
        (clientConnect (clientDisconnect EventClientState.init)
          "/eventstream/clip/v2") = Except.ok () := by
  constructor <;> rfl

/-- C9 (amended): after `disconnect()` returns on a client that was
connected, the instance can never again reach a listenable state: a
subsequent `connect()` returns normally and records the endpoint, yet after
any sequence of further connect/disconnect calls `is_connected()` is false
and `listen()` fails its guard with a `RuntimeError`, because the HTTP
client has been released and nothing ever recreates it. -/
theorem C9_disconnect_permanent (c : EventClientState) (hconn : c.connected = true)
    (ops : List ClientOp) (e : String) :
    (clientConnect (clientDisconnect c) e).connected = true ∧
    (clientConnect (clientDisconnect c) e).endpoint = some e ∧
    clientIsConnected (runClientOps ops (clientDisconnect c)) = false ∧
    ∃ msg, listenGuard (runClientOps ops (clientDisconnect c))
        = Except.error msg := by
  have hdc : clientDisconnect c
      = { connected := false, clientPresent := false, endpoint := none } := by
    simp [clientDisconnect, hconn]
  have hcp : (runClientOps ops (clientDisconnect c)).clientPresent = false := by
    apply clientPresent_false_invariant
    rw [hdc]
  refine ⟨?_, ?_, ?_, ?_⟩
  · rw [hdc]
    rfl
  · rw [hdc]
    rfl
  · simp [clientIsConnected, hcp]
  · refine ⟨"RuntimeError: Not connected to event stream. Call connect() first.", ?_⟩
    unfold listenGuard
    rw [hcp]
    simp

/-- A connected client for the C9 witness. -/
def exConnectedClient : EventClientState :=
  { connected := true, clientPresent := true
    endpoint := some "/eventstream/clip/v2" }

/-- Witness for C9's amended theorem on a concrete connected client. -/
theorem C9_disconnect_permanent_witness :
    (clientConnect (clientDisconnect exConnectedClient) "/retry").connected
        = true ∧
    clientIsConnected
        (runClientOps [ClientOp.connect "/retry"]
          (clientDisconnect exConnectedClient)) = false := by
  obtain ⟨h1, h2, h3, h4⟩ :=
    C9_disconnect_permanent exConnectedClient rfl [ClientOp.connect "/retry"]
      "/retry"
  exact ⟨h1, h3⟩

/-! ## Concrete witnesses for the state-manager claims -/

/-- The claim's example light: on, brightness 50. -/
def exLight : light_dto.LightResponseDTO :=
  { id := "L1"
    id_v1 := none
    owner := { rid := "dev1", rtype := "device" }
    metadata := some { name := "Desk lamp", archetype := none, fixed_mired := none }
    product_data := none
    identify := none
    service_id := none
    «on» := OnSlot.dict [("on", true)]
    dimming := some (light_dto.DimmingSlot.rest { brightness := 50, min_dim_level := none })
    dimming_delta := none
    color_temperature := none
    color_temperature_delta := none
    color := none
    dynamics := none
    alert := none
    signaling := none
    mode := none
    gradient := none
    effects := none
    effects_v2 := none
    timed_effects := none
    powerup := none
    content_configuration := none
    type := "light" }

/-- A state manager seeded with the example light via `update_from_rest`. -/
def exSeedState : StateManager :=
  update_from_rest StateManager.init ResourceType.light "L1"
    (ResourceData.light exLight) 1

/-- An update event for light `L1` carrying only `brightness = 75`. -/
def exBrightnessEvent : InternalEventDTO :=
  { event_id := "ev1"
    event_type := EventType.update
    resource_type := ResourceType.light
    resource_id := "L1"
    timestamp := 5
    data :=
      { id := "L1", id_v1 := none, type := ResourceType.light, owner := none
        «on» := none, dimming := some { brightness := 75 }, service_id := none }
    metadata := none }

/-- Witness for C5, the spec's own example: seed `L1` with on and
brightness 50, patch with brightness 75 only, and the result keeps `on`
while the dimming slot now holds brightness 75. -/
theorem C5_patch_preserves_untouched_witness :
    (update_from_event exSeedState exBrightnessEvent).lights
        = alInsert exSeedState.lights "L1"
            (patch_state (ResourceData.light exLight) exBrightnessEvent) ∧
    ∃ d' : light_dto.LightResponseDTO,
      patch_state (ResourceData.light exLight) exBrightnessEvent
          = ResourceData.light d' ∧
      d'.«on» = OnSlot.dict [("on", true)] ∧
      d'.dimming = some (light_dto.DimmingSlot.event { brightness := 75 }) := by
  obtain ⟨hl, -, -, -, -, hlight, -, -, -⟩ :=
    C5_patch_preserves_untouched exSeedState exBrightnessEvent
      (ResourceData.light exLight) (Or.inl rfl) rfl
  obtain ⟨hmap, -, -, -⟩ := hl rfl
  obtain ⟨d', heq, hon, hdim, -⟩ := hlight exLight rfl
  exact ⟨hmap, d', heq, by simpa [exBrightnessEvent, exLight] using hon,
    by simpa [exBrightnessEvent, exLight] using hdim⟩

/-- An update event for a light id that is not in the cache. -/
def exMissingEvent : InternalEventDTO :=
  { event_id := "ev2"
    event_type := EventType.update
    resource_type := ResourceType.light
    resource_id := "L9"
    timestamp := 6
    data :=
      { id := "L9", id_v1 := none, type := ResourceType.light, owner := none
        «on» := some { «on» := false }, dimming := none, service_id := none }
    metadata := none }

/-- Witness for C6: patching an empty cache changes nothing and creates no
entry. -/
theorem C6_patch_absent_noop_witness :
    update_from_event StateManager.init exMissingEvent = StateManager.init ∧
    alGet (update_from_event StateManager.init exMissingEvent).lights "L9"
        = none := by
  obtain ⟨h1, h2⟩ :=
    C6_patch_absent_noop StateManager.init exMissingEvent (Or.inl rfl) rfl
  exact ⟨h1, (h2 exMissingEvent "L9").1 rfl⟩

/-- A zone snapshot — `zone` is outside the four cached resource kinds. -/
def exZoneSnapshot : ResourceData :=
  ResourceData.room
    { id := "z1", id_v1 := none
      metadata := { name := "Upstairs", archetype := none }
      children := [], services := [], type := "zone" }

/-- Witness for C10: a REST write of a `zone` snapshot caches nothing but
still stamps the timestamp. -/
theorem C10_uncached_type_stamps_witness :
    get_last_update
        (update_from_rest StateManager.init ResourceType.zone "z1"
          exZoneSnapshot 7) "z1" = some 7 ∧
    (update_from_rest StateManager.init ResourceType.zone "z1"
        exZoneSnapshot 7).lights = StateManager.init.lights := by
  obtain ⟨hl, hg, hr, hs, -, -, -, -, ht⟩ :=
    C10_uncached_type_stamps StateManager.init ResourceType.zone "z1"
      exZoneSnapshot 7 (by decide) (by decide) (by decide) (by decide)
  exact ⟨ht, hl⟩

end Pyhuec
